import Mathlib

/-!
# Verification of the trading-oracle decision core

Shallow embedding of the decision engine, consensus engine, backtester and
feature base of the `trading-oracle` repository, together with proofs about
the claims of its specification.

Conventions of the embedding:
* Python `float` / `Decimal` arithmetic is modelled by exact rationals (`ℚ`);
  all numeric constants of the claims are exactly representable.
* Python dataclasses become structures; a failed `assert` in a constructor is
  modelled by an `Option`-returning smart constructor.
* A raised exception from a fallible computation is modelled by `Except`.

The first half of the file holds the definitions (translated from the
source), the second half the theorems.
-/

namespace TradingOracle

/-! ## Feature base (`oracle/features/base.py`) -/

/-- Dataclass `FeatureResult` (validated fields). `direction` is -1 / 0 / 1
and `strength` lies in `[0,1]` for every value that passed construction. -/
structure FeatureResult where
  name : String
  category : String
  rawValue : ℚ
  direction : ℤ
  strength : ℚ
  explanation : String
deriving DecidableEq, Repr

/-- `FeatureResult.__post_init__`: the construction of a `FeatureResult`
asserts `direction in [-1, 0, 1]` and `0 <= strength <= 1`; a violation
raises, modelled by `none`. -/
def mkFeatureResult (name category : String) (rawValue : ℚ) (direction : ℤ)
    (strength : ℚ) (explanation : String) : Option FeatureResult :=
  if (direction = -1 ∨ direction = 0 ∨ direction = 1) ∧
      (0 ≤ strength ∧ strength ≤ 1) then
    some ⟨name, category, rawValue, direction, strength, explanation⟩
  else
    none

/-- `BaseFeature._adx_trend_strength`, strength part once the direction is
fixed: strength from the ADX bands (`18–40` mapped to `0–1`, `≥40` via
`min(1,(adx-40)/40)`), boosted `×1.2` when the DI spread strictly exceeds
20. -/
def adxStrengthWithDir (dir : ℤ) (adx diPlus diMinus : ℚ) : ℤ × ℚ :=
  let strength : ℚ :=
    if 40 ≤ adx then min 1 ((adx - 40) / 40) else (adx - 18) / 22
  let diSpread : ℚ := |diPlus - diMinus|
  let strength : ℚ :=
    if 20 < diSpread then min 1 (strength * (12 / 10)) else strength
  (dir, strength)

/-- `BaseFeature._adx_trend_strength`: direction from the DI comparison;
ADX below 18 gives a neutral result. -/
def adxTrendStrength (adx diPlus diMinus : ℚ) : ℤ × ℚ :=
  if adx < 18 then (0, 0)
  else if diMinus < diPlus then
    adxStrengthWithDir 1 adx diPlus diMinus
  else if diPlus < diMinus then
    adxStrengthWithDir (-1) adx diPlus diMinus
  else (0, 0)

/-! ## Layer 1 scoring (`oracle/engine/decision_engine.py`, `Layer1Scorer`) -/

/-- One entry of the contribution list built by `compute_weighted_score`
(the `metadata` dict of the source entry carries no information used by any
claim and is not modelled). -/
structure Contribution where
  name : String
  category : String
  rawValue : ℚ
  direction : ℤ
  strength : ℚ
  weight : ℚ
  contribution : ℚ
  explanation : String
deriving DecidableEq, Repr

/-- `Layer1Scorer._get_default_timeframe_weights`: the hardcoded per-timeframe
weight presets. -/
def defaultTimeframeWeights (timeframe : String) : List (String × ℚ) :=
  if timeframe = "15m" ∨ timeframe = "1h" ∨ timeframe = "4h" then
    [("RSI", 12/10), ("Stochastic", 11/10), ("MACD", 1), ("BollingerBands", 11/10),
     ("VWAP", 13/10), ("VolumeRatio", 12/10), ("FundingRate", 13/10),
     ("Liquidations", 14/10), ("ADX", 8/10), ("EMA_20_50", 9/10),
     ("Supertrend", 9/10), ("DXY", 5/10), ("VIX", 6/10), ("RealYields", 3/10)]
  else if timeframe = "1d" then
    [("RSI", 1), ("MACD", 1), ("ADX", 12/10), ("EMA_20_50", 13/10),
     ("Supertrend", 12/10), ("BBWidth", 11/10), ("DXY", 1), ("VIX", 9/10),
     ("RealYields", 11/10), ("FundingRate", 1), ("OpenInterest", 11/10),
     ("GoldSilverRatio", 1)]
  else
    [("ADX", 13/10), ("EMA_20_50", 15/10), ("Supertrend", 13/10), ("DXY", 14/10),
     ("RealYields", 15/10), ("VIX", 1), ("GoldSilverRatio", 12/10),
     ("MinersGoldRatio", 12/10), ("GLDFlow", 11/10), ("RSI", 7/10),
     ("Stochastic", 5/10), ("VWAP", 3/10), ("FundingRate", 6/10)]

/-- `Layer1Scorer._get_weight`: custom per-feature weights override the
timeframe presets; features listed in neither fall back to weight `1.0`. -/
def getWeight (timeframe : String) (customWeights : List (String × ℚ))
    (featureName : String) : ℚ :=
  match customWeights.lookup featureName with
  | some w => w
  | none => ((defaultTimeframeWeights timeframe).lookup featureName).getD 1

/-- The contribution entry built for one feature result inside the loop of
`compute_weighted_score`: `contribution = weight * direction * strength`. -/
def contribOf (timeframe : String) (customWeights : List (String × ℚ))
    (r : FeatureResult) : Contribution :=
  let w := getWeight timeframe customWeights r.name
  { name := r.name, category := r.category, rawValue := r.rawValue,
    direction := r.direction, strength := r.strength, weight := w,
    contribution := w * (r.direction : ℚ) * r.strength,
    explanation := r.explanation }

/-- The comparison used to sort contributions: descending absolute
contribution (`contributions.sort(key=lambda x: abs(x['contribution']),
reverse=True)`). -/
def leAbsContribution (a b : Contribution) : Bool :=
  |b.contribution| ≤ |a.contribution|

/-- `Layer1Scorer.compute_weighted_score`: sums `weight*direction*strength`
over all computed feature results and returns the total together with the
contribution list sorted by descending absolute contribution. -/
def computeWeightedScore (timeframe : String)
    (customWeights : List (String × ℚ)) (results : List FeatureResult) :
    ℚ × List Contribution :=
  let contributions := results.map (contribOf timeframe customWeights)
  let total := (contributions.map (fun c => c.contribution)).sum
  (total, contributions.mergeSort leAbsContribution)

/-- `DecisionEngine.generate_decision`: `top_drivers = contributions[:5]`. -/
def topDrivers (contributions : List Contribution) : List Contribution :=
  contributions.take 5

/-! ## Per-feature error isolation (`Layer1Scorer.calculate_features`) -/

/-- A registered feature calculator as seen by `calculate_features`: its
name, its applicability flags and the outcome of its `calculate` call on the
given data (`Except.error` models a raised exception). -/
structure Feature where
  name : String
  applicableSpot : Bool
  applicableDerivatives : Bool
  calcResult : Except String FeatureResult

/-- `Layer1Scorer._is_applicable`. -/
def isApplicable (marketType : String) (f : Feature) : Bool :=
  if marketType = "SPOT" then f.applicableSpot
  else if marketType = "PERPETUAL" ∨ marketType = "FUTURES" then
    f.applicableDerivatives
  else true

/-- `Layer1Scorer.calculate_features`: for each feature, skip it when not
applicable; compute it and append the result; a raised exception is caught at
this per-feature boundary and the feature is skipped (`continue`). -/
def calculateFeatures (marketType : String) : List Feature →
    List FeatureResult
  | [] => []
  | f :: rest =>
    if isApplicable marketType f then
      match f.calcResult with
      | .ok r => r :: calculateFeatures marketType rest
      | .error _ => calculateFeatures marketType rest
    else calculateFeatures marketType rest

/-! ## Layer 2 rules (`oracle/engine/decision_engine.py`, `Layer2Rules`) -/

/-- The seven signal values produced by `_score_to_signal`. -/
inductive Signal
  | STRONG_SELL
  | SELL
  | WEAK_SELL
  | NEUTRAL
  | WEAK_BUY
  | BUY
  | STRONG_BUY
deriving DecidableEq, Repr

/-- The three bias values. -/
inductive Bias
  | BEARISH
  | NEUTRAL
  | BULLISH
deriving DecidableEq, Repr

/-- The rank of a signal on the order
STRONG_SELL < SELL < WEAK_SELL < NEUTRAL < WEAK_BUY < BUY < STRONG_BUY. -/
def Signal.rank : Signal → ℕ
  | .STRONG_SELL => 0
  | .SELL => 1
  | .WEAK_SELL => 2
  | .NEUTRAL => 3
  | .WEAK_BUY => 4
  | .BUY => 5
  | .STRONG_BUY => 6

/-- `Layer2Rules._score_to_signal`, signal/bias part: fixed thresholds on the
adjusted score. -/
def scoreToSignalBias (score : ℚ) : Signal × Bias :=
  if 4 < score then (.STRONG_BUY, .BULLISH)
  else if 2 < score then (.BUY, .BULLISH)
  else if 1/2 < score then (.WEAK_BUY, .BULLISH)
  else if -(1/2) < score then (.NEUTRAL, .NEUTRAL)
  else if -2 < score then (.WEAK_SELL, .BEARISH)
  else if -4 < score then (.SELL, .BEARISH)
  else (.STRONG_SELL, .BEARISH)

/-- `Layer2Rules._score_to_signal`, confidence part:
`confidence = int(min(100, abs(score)/10*100))`, reduced `×0.7` when the
regime is RANGING and the signal is not NEUTRAL, `×0.8` when a conflict was
flagged (Python `int()` truncates; the values are nonnegative, so it is the
floor), finally clamped to `[0, 100]`. -/
def scoreToSignalConfidence (score : ℚ) (ranging conflict : Bool) : ℤ :=
  let confidenceRaw : ℚ := min 100 (|score| / 10 * 100)
  let confidence : ℤ := ⌊confidenceRaw⌋
  let signal := (scoreToSignalBias score).1
  let confidence : ℤ :=
    if ranging ∧ signal ≠ .NEUTRAL then ⌊(confidence : ℚ) * (7/10)⌋
    else confidence
  let confidence : ℤ :=
    if conflict then ⌊(confidence : ℚ) * (8/10)⌋ else confidence
  max 0 (min 100 confidence)

/-! ## Consensus engine (`oracle/engine/consensus_engine.py`) -/

/-- The category-direction strings `"BULLISH"` / `"BEARISH"` / `"NEUTRAL"`
returned by `CategoryVotes.direction`. -/
inductive Direction3
  | BULLISH
  | BEARISH
  | NEUTRAL
deriving DecidableEq, Repr

/-- Dataclass `CategoryVotes`: the bull/bear/neutral tallies of one feature
category. -/
structure CategoryVotes where
  bull : ℕ
  bear : ℕ
  neutral : ℕ
deriving DecidableEq, Repr

/-- `CategoryVotes.total`. -/
def CategoryVotes.total (v : CategoryVotes) : ℕ := v.bull + v.bear + v.neutral

/-- `CategoryVotes.direction`: the dominant direction, NEUTRAL unless one of
bull/bear strictly beats both other tallies. -/
def CategoryVotes.direction (v : CategoryVotes) : Direction3 :=
  if v.bear < v.bull ∧ v.neutral < v.bull then .BULLISH
  else if v.bull < v.bear ∧ v.neutral < v.bear then .BEARISH
  else .NEUTRAL

/-- `CategoryVotes.strength`: the majority-vote fraction within the category
(0 when the category has no votes). -/
def CategoryVotes.strength (v : CategoryVotes) : ℚ :=
  if v.total = 0 then 0
  else (max v.bull (max v.bear v.neutral) : ℚ) / (v.total : ℚ)

/-- `ConsensusEngine.categories`: the fixed six-category list the vote dict
is initialized with. -/
def standardCategories : List String :=
  ["TECHNICAL", "MACRO", "CRYPTO_DERIVATIVES", "INTERMARKET", "SENTIMENT",
   "ONCHAIN"]

/-- The per-category vote tally built by the counting loop of
`calculate_consensus`: each feature result votes bull / bear / neutral in the
bucket of its own category according to the sign of its direction. -/
def tallyVotes (rs : List FeatureResult) (cat : String) : CategoryVotes :=
  { bull := rs.countP (fun r => r.category = cat ∧ 0 < r.direction),
    bear := rs.countP (fun r => r.category = cat ∧ r.direction < 0),
    neutral := rs.countP (fun r => r.category = cat ∧ r.direction = 0) }

/-- The key set of the vote dict: the six standard categories followed by the
unknown categories encountered in the feature results (each key once). -/
def voteKeys (rs : List FeatureResult) : List String :=
  standardCategories ++
    ((rs.map (fun r => r.category)).filter
      (fun c => ¬ c ∈ standardCategories)).dedup

/-- `total_bull = sum(v.bull for v in votes.values())`. -/
def totalBull (rs : List FeatureResult) : ℕ :=
  ((voteKeys rs).map (fun c => (tallyVotes rs c).bull)).sum

/-- `total_bear = sum(v.bear for v in votes.values())`. -/
def totalBear (rs : List FeatureResult) : ℕ :=
  ((voteKeys rs).map (fun c => (tallyVotes rs c).bear)).sum

/-- `total_neutral = sum(v.neutral for v in votes.values())`. -/
def totalNeutral (rs : List FeatureResult) : ℕ :=
  ((voteKeys rs).map (fun c => (tallyVotes rs c).neutral)).sum

/-- One conflict entry appended by `_detect_conflicts` (the source formats
these fields into a message string; the fields themselves are modelled). -/
structure ConflictRec where
  cat1 : String
  cat2 : String
  dir1 : Direction3
  dir2 : Direction3
  strength1 : ℚ
  strength2 : ℚ
deriving DecidableEq, Repr

/-- `_detect_conflicts`: the five predefined conflict pairs (note that the
TECHNICAL/SENTIMENT pairing occurs twice, once in each order). -/
def conflictPairs : List (String × String) :=
  [("TECHNICAL", "MACRO"), ("TECHNICAL", "SENTIMENT"),
   ("CRYPTO_DERIVATIVES", "TECHNICAL"), ("ONCHAIN", "TECHNICAL"),
   ("SENTIMENT", "TECHNICAL")]

/-- The body of the `_detect_conflicts` loop for one conflict pair: a conflict
is recorded when both categories received votes, their dominant directions
are opposite (BULLISH vs BEARISH) and both internal strengths are `≥ 0.6`. -/
def checkPair (votes : String → CategoryVotes) (p : String × String) :
    Option ConflictRec :=
  let v1 := votes p.1
  let v2 := votes p.2
  if v1.total ≠ 0 ∧ v2.total ≠ 0 then
    if (v1.direction = .BULLISH ∧ v2.direction = .BEARISH) ∨
        (v1.direction = .BEARISH ∧ v2.direction = .BULLISH) then
      if 3/5 ≤ v1.strength ∧ 3/5 ≤ v2.strength then
        some ⟨p.1, p.2, v1.direction, v2.direction, v1.strength, v2.strength⟩
      else none
    else none
  else none

/-- `ConsensusEngine._detect_conflicts`. -/
def detectConflicts (votes : String → CategoryVotes) : List ConflictRec :=
  conflictPairs.filterMap (checkPair votes)

/-- The `agreements` counter of `_calculate_cross_category_agreement`:
number of unordered pairs of active categories with equal direction. -/
def countAgreePairs : List CategoryVotes → ℕ
  | [] => 0
  | v :: rest =>
    rest.countP (fun w => w.direction = v.direction) + countAgreePairs rest

/-- The `comparisons` counter: number of unordered pairs. -/
def countComparisons : List CategoryVotes → ℕ
  | [] => 0
  | _ :: rest => rest.length + countComparisons rest

/-- `ConsensusEngine._calculate_cross_category_agreement`. -/
def crossCategoryAgreementOf (active : List CategoryVotes) : ℚ :=
  if active.length < 2 then 1
  else if countComparisons active = 0 then 1
  else (countAgreePairs active : ℚ) / (countComparisons active : ℚ)

/-- `ConsensusEngine._classify_consensus`. -/
def classifyConsensus (pct : ℚ) : String :=
  if 3/4 ≤ pct then "STRONG_CONSENSUS"
  else if 3/5 ≤ pct then "MODERATE_CONSENSUS"
  else if 1/2 ≤ pct then "WEAK_CONSENSUS"
  else "NO_CONSENSUS"

/-- Dataclass `ConsensusResult` (the vote dict is modelled as the tally
function over category names). -/
structure ConsensusResult where
  consensusPercentage : ℚ
  categoryVotes : String → CategoryVotes
  agreementLevel : String
  conflicts : List ConflictRec
  totalFeatures : ℕ
  bullCount : ℕ
  bearCount : ℕ
  neutralCount : ℕ
  crossCategoryAgreement : ℚ

/-- The internal `consensus_pct` of `calculate_consensus`:
`max(bull, bear, neutral) / total_features` (0 when there are no features). -/
def consensusPct (rs : List FeatureResult) : ℚ :=
  if rs.length = 0 then 0
  else (max (totalBull rs) (max (totalBear rs) (totalNeutral rs)) : ℚ) /
    (rs.length : ℚ)

/-- `ConsensusEngine.calculate_consensus`. -/
def calculateConsensus (rs : List FeatureResult) : ConsensusResult :=
  let votes := tallyVotes rs
  { consensusPercentage := consensusPct rs * 100,
    categoryVotes := votes,
    agreementLevel := classifyConsensus (consensusPct rs),
    conflicts := detectConflicts votes,
    totalFeatures := rs.length,
    bullCount := totalBull rs,
    bearCount := totalBear rs,
    neutralCount := totalNeutral rs,
    crossCategoryAgreement := crossCategoryAgreementOf
      (((voteKeys rs).filter (fun c => (votes c).total ≠ 0)).map votes) }

/-- The conflict factor of step 2 of `adjust_confidence_by_consensus`:
`(1 - 0.10 × len(conflicts))` when any conflict was detected, else 1. -/
def conflictPenaltyFactor (conflicts : List ConflictRec) : ℚ :=
  if conflicts ≠ [] then 1 - (1/10) * (conflicts.length : ℚ) else 1

/-- `ConsensusEngine.adjust_confidence_by_consensus`: multiplies the base
confidence by the agreement-tier factor, the conflict penalty and the
cross-category bonus/penalty, then clamps to `[0, 100]`. -/
def adjustConfidenceByConsensus (baseConfidence : ℚ) (c : ConsensusResult) :
    ℚ :=
  let f : ℚ :=
    if c.agreementLevel = "STRONG_CONSENSUS" then 115/100
    else if c.agreementLevel = "MODERATE_CONSENSUS" then 105/100
    else if c.agreementLevel = "WEAK_CONSENSUS" then 95/100
    else 80/100
  let f := f * conflictPenaltyFactor c.conflicts
  let f :=
    if 8/10 ≤ c.crossCategoryAgreement then f * (110/100)
    else if c.crossCategoryAgreement ≤ 4/10 then f * (90/100)
    else f
  max 0 (min 100 (baseConfidence * f))

/-! ## Trade parameters (`DecisionEngine._calculate_trade_params`) -/

/-- One OHLC bar (only the fields the modelled code reads). -/
structure Bar where
  high : ℚ
  low : ℚ
  close : ℚ
deriving DecidableEq, Repr

/-- True ranges of the bars following the first one:
`max(high-low, |high-prev_close|, |low-prev_close|)`. -/
def trueRangesFrom (prevClose : ℚ) : List Bar → List ℚ
  | [] => []
  | b :: rest =>
    max (b.high - b.low) (max |b.high - prevClose| |b.low - prevClose|) ::
      trueRangesFrom b.close rest

/-- The true-range series: the first bar has no previous close (the shifted
columns are NaN and the row maximum skips them), so its TR is `high - low`. -/
def trueRanges : List Bar → List ℚ
  | [] => []
  | b :: rest => (b.high - b.low) :: trueRangesFrom b.close rest

/-- `tr.rolling(window=14).mean().iloc[-1]`: the mean of the last 14 true
ranges. Meaningful only when at least 14 bars exist (fewer bars give NaN in
the source, which the theorems exclude by hypothesis). -/
def atr14 (bars : List Bar) : ℚ :=
  let trs := trueRanges bars
  ((trs.drop (trs.length - 14)).sum) / 14

/-- `signal in ['STRONG_BUY', 'BUY', 'WEAK_BUY']`. -/
def isBuySignal : Signal → Bool
  | .STRONG_BUY => true
  | .BUY => true
  | .WEAK_BUY => true
  | _ => false

/-- `signal in ['STRONG_SELL', 'SELL', 'WEAK_SELL']`. -/
def isSellSignal : Signal → Bool
  | .STRONG_SELL => true
  | .SELL => true
  | .WEAK_SELL => true
  | _ => false

/-- `DecisionEngine._calculate_trade_params`: ATR(14)-based stop distance
(multiplier 2.5 in a HIGH-volatility regime, else 2.0), reward:risk from the
confidence buckets, stop and target mirrored for sell-side signals, and no
parameters at all for a NEUTRAL signal. Returns
`(entry, stop_loss, take_profit, risk_reward)`. -/
def calculateTradeParams (currentPrice : ℚ) (bars : List Bar)
    (signal : Signal) (confidence : ℤ) (volHigh : Bool) :
    Option (ℚ × ℚ × ℚ × ℚ) :=
  let atr := atr14 bars
  let stopMultiplier : ℚ := if volHigh then 5/2 else 2
  let rr : ℚ := if 80 < confidence then 3 else if 60 < confidence then 5/2
    else 2
  if isBuySignal signal then
    let stopLoss := currentPrice - atr * stopMultiplier
    let risk := currentPrice - stopLoss
    some (currentPrice, stopLoss, currentPrice + risk * rr, rr)
  else if isSellSignal signal then
    let stopLoss := currentPrice + atr * stopMultiplier
    let risk := stopLoss - currentPrice
    some (currentPrice, stopLoss, currentPrice - risk * rr, rr)
  else none

/-! ## Backtesting (`oracle/backtesting.py`, `Backtester._evaluate_decision`) -/

/-- The recorded exit reason of a simulated trade. -/
inductive ExitReason
  | STOP_LOSS
  | TAKE_PROFIT
  | TIMEOUT
deriving DecidableEq, Repr

/-- The `holding_periods` lookup: bars to walk per timeframe, default 48. -/
def holdingPeriods (timeframe : String) : ℕ :=
  if timeframe = "15m" then 24
  else if timeframe = "1h" then 48
  else if timeframe = "4h" then 72
  else if timeframe = "1d" then 30
  else if timeframe = "1w" then 12
  else 48

/-- The number of candles requested from the provider:
`limit = candles_to_fetch + 10` (a buffer on top of the holding period). -/
def fetchLimit (timeframe : String) : ℕ := holdingPeriods timeframe + 10

/-- Intrabar stop-loss breach: `low <= stop` for a long, `high >= stop` for a
short. -/
def stopHit (isLong : Bool) (stopLoss : ℚ) (b : Bar) : Bool :=
  if isLong then b.low ≤ stopLoss else stopLoss ≤ b.high

/-- Intrabar take-profit breach: `high >= target` for a long, `low <= target`
for a short. -/
def targetHit (isLong : Bool) (target : ℚ) (b : Bar) : Bool :=
  if isLong then target ≤ b.high else b.low ≤ target

/-- The candle loop of `_evaluate_decision`: scan the bars in order, exit at
the stop level with STOP_LOSS as soon as the stop is breached (checked
first), else at the target level with TAKE_PROFIT; `i` is the index of the
current bar. -/
def scanExit (isLong : Bool) (stopLoss target : ℚ) :
    List Bar → ℕ → Option (ℚ × ExitReason × ℕ)
  | [], _ => none
  | b :: rest, i =>
    if stopHit isLong stopLoss b then some (stopLoss, .STOP_LOSS, i)
    else if targetHit isLong target b then some (target, .TAKE_PROFIT, i)
    else scanExit isLong stopLoss target rest (i + 1)

/-- `Backtester._evaluate_decision` on the fetched forward bars: `none` when
fewer than 5 bars were returned; otherwise the first breach exit, or a
TIMEOUT exit at the last bar's close. Returns
`(exit_price, exit_reason, exit_index)`. -/
def evaluateDecision (isLong : Bool) (stopLoss target : ℚ)
    (bars : List Bar) : Option (ℚ × ExitReason × ℕ) :=
  if bars.length < 5 then none
  else
    match scanExit isLong stopLoss target bars 0 with
    | some r => some r
    | none =>
      match bars.getLast? with
      | some lastBar => some (lastBar.close, .TIMEOUT, bars.length - 1)
      | none => none

/-! ## Quality filters (`oracle/engine/enhanced_analysis.py`) -/

/-- Dataclass `EnhancedDecisionOutput`, restricted to the fields
`apply_quality_filters` reads or writes (the warning-message list and the
remaining metadata fields carry no information used by any claim). -/
structure EnhancedDecisionOutput where
  signal : Signal
  confidence : ℚ
  qualityScore : ℚ
  featureAgreement : ℚ
  anomalyScore : ℚ
deriving DecidableEq, Repr

/-- `apply_quality_filters`: downgrade STRONG signals when the quality score
is below 50; subtract 15 confidence points (floored at 0) when the anomaly
score exceeds 0.7; subtract 10 more points (floored at 0) when the feature
agreement is below 55. `modified` aliases `decision` in the source, so rule 3
reads the confidence already updated by rule 2. No upper clamp is applied
here. -/
def applyQualityFilters (d : EnhancedDecisionOutput) :
    EnhancedDecisionOutput :=
  let signal1 :=
    if d.qualityScore < 50 then
      if d.signal = .STRONG_BUY then Signal.BUY
      else if d.signal = .STRONG_SELL then Signal.SELL
      else d.signal
    else d.signal
  let conf1 :=
    if 7/10 < d.anomalyScore then max (d.confidence - 15) 0 else d.confidence
  let conf2 :=
    if d.featureAgreement < 55 then max (conf1 - 10) 0 else conf1
  { d with signal := signal1, confidence := conf2 }

/-! ## Concrete inputs used by witnesses and counterexamples -/

/-- A bar that breaches neither a stop of 95 nor a target of 115 (long). -/
def quietBar : Bar := ⟨101, 99, 100⟩

/-- 24 quiet bars followed by one bar that breaches the stop 95. -/
def bars25 : List Bar := List.replicate 24 quietBar ++ [⟨101, 90, 94⟩]

/-- A decision with out-of-range confidence 150 that no quality rule
touches. -/
def overConfidentDecision : EnhancedDecisionOutput :=
  { signal := .NEUTRAL, confidence := 150, qualityScore := 100,
    featureAgreement := 100, anomalyScore := 0 }

/-- Three demo feature results: two bullish TECHNICAL, one bearish MACRO. -/
def demoResults : List FeatureResult :=
  [⟨"RSI", "TECHNICAL", 50, 1, 1/2, "a"⟩,
   ⟨"MACD", "TECHNICAL", 1, 1, 1/2, "b"⟩,
   ⟨"DXY", "MACRO", 100, -1, 1/2, "c"⟩]

/-- Demo results with bullish TECHNICAL and bearish SENTIMENT only. -/
def conflictResults : List FeatureResult :=
  [⟨"RSI", "TECHNICAL", 50, 1, 1/2, "a"⟩,
   ⟨"MACD", "TECHNICAL", 1, 1, 1/2, "b"⟩,
   ⟨"Fear", "SENTIMENT", 10, -1, 1/2, "c"⟩,
   ⟨"Greed", "SENTIMENT", 20, -1, 1/2, "d"⟩]

/-- Demo calculator that succeeds with a bullish result named "A". -/
def featA : Feature := ⟨"A", true, true, .ok ⟨"A", "TECHNICAL", 1, 1, 1/2, "a"⟩⟩

/-- Demo calculator named "B" that raises. -/
def featB : Feature := ⟨"B", true, true, .error "division by zero"⟩

/-- Demo calculator that succeeds with a bearish result named "C". -/
def featC : Feature := ⟨"C", true, true, .ok ⟨"C", "TECHNICAL", 2, -1, 1/2, "c"⟩⟩

/-- Demo features for the error-isolation claim: a succeeding calculator, a
raising calculator, and another succeeding one. -/
def demoFeatures : List Feature := [featA, featB, featC]

/-! ## Theorems -/

/-- C2: a `FeatureResult` construction succeeds exactly when
`direction ∈ {-1,0,1}` and `strength ∈ [0,1]` (otherwise the assertion
raises), and every successfully constructed result satisfies the
invariant. -/
theorem featureResult_validation (name category : String) (rawValue : ℚ)
    (direction : ℤ) (strength : ℚ) (explanation : String) :
    ((mkFeatureResult name category rawValue direction strength
        explanation).isSome ↔
      ((direction = -1 ∨ direction = 0 ∨ direction = 1) ∧
        0 ≤ strength ∧ strength ≤ 1)) ∧
    (∀ r, mkFeatureResult name category rawValue direction strength
        explanation = some r →
      (r.direction = -1 ∨ r.direction = 0 ∨ r.direction = 1) ∧
        0 ≤ r.strength ∧ r.strength ≤ 1) := by
  constructor
  · unfold mkFeatureResult
    by_cases hc : (direction = -1 ∨ direction = 0 ∨ direction = 1) ∧
        (0 ≤ strength ∧ strength ≤ 1)
    · rw [if_pos hc]
      simpa using hc
    · rw [if_neg hc]
      simpa using hc
  · intro r hr
    unfold mkFeatureResult at hr
    by_cases hc : (direction = -1 ∨ direction = 0 ∨ direction = 1) ∧
        (0 ≤ strength ∧ strength ≤ 1)
    · rw [if_pos hc] at hr
      cases hr
      exact hc
    · rw [if_neg hc] at hr
      exact Option.noConfusion hr

/-- Witness for C2 at a concrete valid construction. -/
theorem featureResult_validation_witness :
    ((⟨"RSI", "TECHNICAL", 50, 1, 1/2, "ok"⟩ : FeatureResult).direction = -1 ∨
      (⟨"RSI", "TECHNICAL", 50, 1, 1/2, "ok"⟩ : FeatureResult).direction = 0 ∨
      (⟨"RSI", "TECHNICAL", 50, 1, 1/2, "ok"⟩ : FeatureResult).direction = 1) ∧
    0 ≤ (⟨"RSI", "TECHNICAL", 50, 1, 1/2, "ok"⟩ : FeatureResult).strength ∧
    (⟨"RSI", "TECHNICAL", 50, 1, 1/2, "ok"⟩ : FeatureResult).strength ≤ 1 :=
  (featureResult_validation "RSI" "TECHNICAL" 50 1 (1/2) "ok").2 _
    (by norm_num [mkFeatureResult])

/-- C9 counterexample: at ADX = 45, +DI = 30, −DI = 10 the code returns
strength `0.125`, not `0.15`: the DI spread is exactly 20 and the `×1.2`
boost requires a spread strictly greater than 20. -/
theorem adx_example_no_boost :
    adxTrendStrength 45 30 10 = (1, 1/8) ∧ (1/8 : ℚ) ≠ 15/100 := by
  constructor
  · unfold adxTrendStrength adxStrengthWithDir
    norm_num
  · norm_num

/-- C9 (amended): for ADX = 45, +DI = 30, −DI = 10 the normalization returns
direction +1 with strength `min(1,(45-40)/40) = 0.125` from the `ADX ≥ 40`
branch; no boost is applied because the DI spread is exactly 20 and the boost
fires only for spreads strictly greater than 20. -/
theorem adx_example_value : adxTrendStrength 45 30 10 = (1, 125/1000) := by
  unfold adxTrendStrength adxStrengthWithDir
  norm_num

theorem leAbsContribution_trans (a b c : Contribution) :
    leAbsContribution a b = true → leAbsContribution b c = true →
    leAbsContribution a c = true := by
  simp only [leAbsContribution, decide_eq_true_eq]
  exact fun h1 h2 => le_trans h2 h1

theorem leAbsContribution_total (a b : Contribution) :
    (leAbsContribution a b || leAbsContribution b a) = true := by
  simp only [leAbsContribution, Bool.or_eq_true, decide_eq_true_eq]
  exact le_total _ _

/-- C1: the raw score is the exact sum of `weight × direction × strength`
over all computed feature results (no feature dropped: unknown names get
weight 1); the returned contribution list is a permutation of the per-feature
contributions sorted by descending absolute contribution; the decision's
top drivers are its first five entries. -/
theorem compute_weighted_score_spec (timeframe : String)
    (customWeights : List (String × ℚ)) (results : List FeatureResult) :
    (computeWeightedScore timeframe customWeights results).1 =
      (results.map (fun r =>
        getWeight timeframe customWeights r.name * (r.direction : ℚ) *
          r.strength)).sum ∧
    List.Sorted (fun a b : Contribution => |b.contribution| ≤ |a.contribution|)
      (computeWeightedScore timeframe customWeights results).2 ∧
    (computeWeightedScore timeframe customWeights results).2.Perm
      (results.map (contribOf timeframe customWeights)) ∧
    topDrivers (computeWeightedScore timeframe customWeights results).2 =
      ((computeWeightedScore timeframe customWeights results).2).take 5 := by
  refine ⟨?_, ?_, ?_, rfl⟩
  · simp only [computeWeightedScore, List.map_map]
    rfl
  · have h := List.sorted_mergeSort leAbsContribution_trans
      leAbsContribution_total (results.map (contribOf timeframe customWeights))
    exact h.imp (fun hab => by
      simpa [leAbsContribution, decide_eq_true_eq] using hab)
  · exact List.mergeSort_perm _ _

/-- The rank of the signal assigned to a score is a sum of six threshold
indicators. -/
theorem rank_scoreToSignalBias (s : ℚ) :
    ((scoreToSignalBias s).1.rank : ℤ) =
      (if -4 < s then 1 else 0) + (if -2 < s then 1 else 0) +
      (if -(1/2) < s then 1 else 0) + (if 1/2 < s then 1 else 0) +
      (if 2 < s then 1 else 0) + (if 4 < s then 1 else 0) := by
  unfold scoreToSignalBias
  split_ifs <;> simp [Signal.rank] <;> linarith

/-- A strict-threshold indicator is monotone in the score. -/
theorem threshold_indicator_mono (c s1 s2 : ℚ) (h : s1 < s2) :
    (if c < s1 then (1 : ℤ) else 0) ≤ (if c < s2 then (1 : ℤ) else 0) := by
  split_ifs <;> linarith

/-- C3: the score-to-signal mapping uses the fixed thresholds `>4`, `>2`,
`>0.5`, `>-0.5`, `>-2`, `>-4` with bias BULLISH on the buy buckets, NEUTRAL
on the neutral bucket and BEARISH on the sell buckets; consequently the
signal rank is monotone in the score. -/
theorem score_to_signal_spec :
    (∀ s : ℚ,
      (4 < s → scoreToSignalBias s = (.STRONG_BUY, .BULLISH)) ∧
      (2 < s → s ≤ 4 → scoreToSignalBias s = (.BUY, .BULLISH)) ∧
      (1/2 < s → s ≤ 2 → scoreToSignalBias s = (.WEAK_BUY, .BULLISH)) ∧
      (-(1/2) < s → s ≤ 1/2 → scoreToSignalBias s = (.NEUTRAL, .NEUTRAL)) ∧
      (-2 < s → s ≤ -(1/2) → scoreToSignalBias s = (.WEAK_SELL, .BEARISH)) ∧
      (-4 < s → s ≤ -2 → scoreToSignalBias s = (.SELL, .BEARISH)) ∧
      (s ≤ -4 → scoreToSignalBias s = (.STRONG_SELL, .BEARISH))) ∧
    (∀ s1 s2 : ℚ, s1 < s2 →
      (scoreToSignalBias s1).1.rank ≤ (scoreToSignalBias s2).1.rank) := by
  constructor
  · intro s
    refine ⟨?_, ?_, ?_, ?_, ?_, ?_, ?_⟩ <;>
      · intros
        unfold scoreToSignalBias
        split_ifs <;> first | rfl | linarith
  · intro s1 s2 h
    have e1 := rank_scoreToSignalBias s1
    have e2 := rank_scoreToSignalBias s2
    have hmono : ((scoreToSignalBias s1).1.rank : ℤ) ≤
        ((scoreToSignalBias s2).1.rank : ℤ) := by
      rw [e1, e2]
      gcongr <;> exact threshold_indicator_mono _ _ _ h
    exact_mod_cast hmono

/-- Witness for C3 at concrete scores. -/
theorem score_to_signal_spec_witness :
    (scoreToSignalBias 1).1.rank ≤ (scoreToSignalBias 3).1.rank :=
  score_to_signal_spec.2 1 3 (by norm_num)

/-! ### Consensus bridging lemmas: the per-category sums of the vote dict
equal direct counts over the feature results. -/

theorem sum_map_add_nat {α : Type} (l : List α) (f g : α → ℕ) :
    (l.map (fun x => f x + g x)).sum = (l.map f).sum + (l.map g).sum := by
  induction l with
  | nil => simp
  | cons a l ih => simp [ih]; omega

theorem sum_indicator_not_mem (keys : List String) (x : String)
    (hx : x ∉ keys) :
    (keys.map (fun c => if x = c then (1 : ℕ) else 0)).sum = 0 := by
  induction keys with
  | nil => simp
  | cons k ks ih =>
    have hxk : x ≠ k := fun h => hx (h ▸ List.mem_cons_self k ks)
    have hxs : x ∉ ks := fun h => hx (List.mem_cons_of_mem k h)
    simp [hxk, ih hxs]

theorem sum_indicator_nodup (keys : List String) (x : String)
    (hnd : keys.Nodup) (hx : x ∈ keys) :
    (keys.map (fun c => if x = c then (1 : ℕ) else 0)).sum = 1 := by
  induction keys with
  | nil => exact absurd hx (List.not_mem_nil x)
  | cons k ks ih =>
    rcases List.mem_cons.mp hx with h | h
    · subst h
      have hxs : x ∉ ks := (List.nodup_cons.mp hnd).1
      simp [sum_indicator_not_mem ks x hxs]
    · have hk : x ≠ k := fun he => (List.nodup_cons.mp hnd).1 (he ▸ h)
      simp [hk, ih (List.nodup_cons.mp hnd).2 h]

theorem sum_tally_count (keys : List String) (q : FeatureResult → Prop)
    [DecidablePred q] (rs : List FeatureResult) (hnd : keys.Nodup)
    (hcov : ∀ r ∈ rs, r.category ∈ keys) :
    (keys.map (fun c => rs.countP (fun r => r.category = c ∧ q r))).sum =
      rs.countP (fun r => q r) := by
  induction rs with
  | nil => simp
  | cons r rs ih =>
    have hcov' : ∀ x ∈ rs, x.category ∈ keys :=
      fun x hx => hcov x (List.mem_cons_of_mem r hx)
    have step : ∀ c : String,
        (r :: rs).countP (fun x => x.category = c ∧ q x) =
          rs.countP (fun x => x.category = c ∧ q x) +
            (if r.category = c ∧ q r then 1 else 0) := by
      intro c
      rw [List.countP_cons]
      simp
    simp only [step]
    rw [sum_map_add_nat, ih hcov']
    rw [List.countP_cons]
    by_cases hq : q r
    · have : ∀ c : String, (if r.category = c ∧ q r then (1 : ℕ) else 0) =
          (if r.category = c then (1 : ℕ) else 0) := by
        intro c
        by_cases hc : r.category = c <;> simp [hc, hq]
      simp only [this]
      rw [sum_indicator_nodup keys r.category hnd
        (hcov r (List.mem_cons_self r rs))]
      simp [hq]
    · have : ∀ c : String, (if r.category = c ∧ q r then (1 : ℕ) else 0) =
          0 := by
        intro c
        simp [hq]
      simp only [this]
      simp [hq]

theorem voteKeys_nodup (rs : List FeatureResult) : (voteKeys rs).Nodup := by
  unfold voteKeys
  refine List.Nodup.append ?_ (List.nodup_dedup _) ?_
  · decide
  · intro a ha hb
    have := List.mem_filter.mp (List.mem_dedup.mp hb)
    simp at this
    exact this.2 ha

theorem mem_voteKeys (rs : List FeatureResult) (r : FeatureResult)
    (hr : r ∈ rs) : r.category ∈ voteKeys rs := by
  unfold voteKeys
  by_cases h : r.category ∈ standardCategories
  · exact List.mem_append_left _ h
  · refine List.mem_append_right _ ?_
    rw [List.mem_dedup, List.mem_filter]
    constructor
    · exact List.mem_map.mpr ⟨r, hr, rfl⟩
    · simpa using h

theorem totalBull_eq (rs : List FeatureResult) :
    totalBull rs = rs.countP (fun r => 0 < r.direction) := by
  unfold totalBull tallyVotes
  exact sum_tally_count (voteKeys rs) (fun r => 0 < r.direction) rs
    (voteKeys_nodup rs) (mem_voteKeys rs)

theorem totalBear_eq (rs : List FeatureResult) :
    totalBear rs = rs.countP (fun r => r.direction < 0) := by
  unfold totalBear tallyVotes
  exact sum_tally_count (voteKeys rs) (fun r => r.direction < 0) rs
    (voteKeys_nodup rs) (mem_voteKeys rs)

theorem totalNeutral_eq (rs : List FeatureResult) :
    totalNeutral rs = rs.countP (fun r => r.direction = 0) := by
  unfold totalNeutral tallyVotes
  exact sum_tally_count (voteKeys rs) (fun r => r.direction = 0) rs
    (voteKeys_nodup rs) (mem_voteKeys rs)

/-- Every feature result votes in exactly one of the three buckets. -/
theorem count_directions (rs : List FeatureResult) :
    rs.countP (fun r => 0 < r.direction) +
      rs.countP (fun r => r.direction < 0) +
      rs.countP (fun r => r.direction = 0) = rs.length := by
  induction rs with
  | nil => simp
  | cons r rs ih =>
    simp only [List.countP_cons, List.length_cons]
    rcases lt_trichotomy r.direction 0 with h | h | h
    · simp only [h, h.ne, not_lt.mpr h.le, decide_eq_true_eq,
        decide_eq_false_iff_not]
      simp [h, h.ne, not_lt.mpr h.le]
      omega
    · simp [h]
      omega
    · simp [h, h.ne', not_lt.mpr h.le]
      omega

/-- The vote totals of `calculate_consensus` partition the feature list. -/
theorem totals_partition (rs : List FeatureResult) :
    totalBull rs + totalBear rs + totalNeutral rs = rs.length := by
  rw [totalBull_eq, totalBear_eq, totalNeutral_eq]
  exact count_directions rs

/-- Everything `checkPair` guarantees about a conflict entry it emits. -/
theorem checkPair_some_props (votes : String → CategoryVotes)
    (p : String × String) (c : ConflictRec)
    (h : checkPair votes p = some c) :
    c.cat1 = p.1 ∧ c.cat2 = p.2 ∧
    c.dir1 = (votes p.1).direction ∧ c.dir2 = (votes p.2).direction ∧
    c.strength1 = (votes p.1).strength ∧
    c.strength2 = (votes p.2).strength ∧
    (votes p.1).total ≠ 0 ∧ (votes p.2).total ≠ 0 ∧
    (((votes p.1).direction = .BULLISH ∧
        (votes p.2).direction = .BEARISH) ∨
      ((votes p.1).direction = .BEARISH ∧
        (votes p.2).direction = .BULLISH)) ∧
    3/5 ≤ (votes p.1).strength ∧ 3/5 ≤ (votes p.2).strength := by
  simp only [checkPair] at h
  split_ifs at h with h1 h2 h3
  · cases h
    exact ⟨rfl, rfl, rfl, rfl, rfl, rfl, h1.1, h1.2, h2, h3.1, h3.2⟩

/-- C5: for a non-empty feature list the consensus percentage equals
`max(bull, bear, neutral) / total_features` (the stored field scales it by
100) and lies in `[1/3, 1]`; and every reported conflict entry comes from
categories whose internal majority-vote strengths are both `≥ 0.6` and whose
dominant directions are opposite (one BULLISH, one BEARISH). -/
theorem calculate_consensus_spec (rs : List FeatureResult) (hne : rs ≠ []) :
    (calculateConsensus rs).consensusPercentage = consensusPct rs * 100 ∧
    consensusPct rs =
      (max (totalBull rs) (max (totalBear rs) (totalNeutral rs)) : ℚ) /
        ((calculateConsensus rs).totalFeatures : ℚ) ∧
    1/3 ≤ consensusPct rs ∧ consensusPct rs ≤ 1 ∧
    ∀ c ∈ (calculateConsensus rs).conflicts,
      3/5 ≤ (tallyVotes rs c.cat1).strength ∧
      3/5 ≤ (tallyVotes rs c.cat2).strength ∧
      (((tallyVotes rs c.cat1).direction = .BULLISH ∧
          (tallyVotes rs c.cat2).direction = .BEARISH) ∨
        ((tallyVotes rs c.cat1).direction = .BEARISH ∧
          (tallyVotes rs c.cat2).direction = .BULLISH)) := by
  have hlen : 0 < rs.length := List.length_pos.mpr hne
  have hlen0 : rs.length ≠ 0 := Nat.pos_iff_ne_zero.mp hlen
  have hlenQ : (0 : ℚ) < (rs.length : ℚ) := by exact_mod_cast hlen
  have hsum := totals_partition rs
  have hBM : totalBull rs ≤
      max (totalBull rs) (max (totalBear rs) (totalNeutral rs)) :=
    le_max_left _ _
  have hRM : totalBear rs ≤
      max (totalBull rs) (max (totalBear rs) (totalNeutral rs)) :=
    le_trans (le_max_left _ _) (le_max_right _ _)
  have hNM : totalNeutral rs ≤
      max (totalBull rs) (max (totalBear rs) (totalNeutral rs)) :=
    le_trans (le_max_right _ _) (le_max_right _ _)
  have hMchoice : max (totalBull rs) (max (totalBear rs) (totalNeutral rs)) =
      totalBull rs ∨
      max (totalBull rs) (max (totalBear rs) (totalNeutral rs)) =
        totalBear rs ∨
      max (totalBull rs) (max (totalBear rs) (totalNeutral rs)) =
        totalNeutral rs := by
    rcases max_choice (totalBull rs) (max (totalBear rs) (totalNeutral rs))
      with h | h
    · exact Or.inl h
    · rcases max_choice (totalBear rs) (totalNeutral rs) with h2 | h2
      · exact Or.inr (Or.inl (h.trans h2))
      · exact Or.inr (Or.inr (h.trans h2))
  have hM_le : max (totalBull rs) (max (totalBear rs) (totalNeutral rs)) ≤
      rs.length := by
    rcases hMchoice with h | h | h <;> omega
  have hlen_le : rs.length ≤
      3 * max (totalBull rs) (max (totalBear rs) (totalNeutral rs)) := by
    omega
  have hcast : ((max (totalBull rs) (max (totalBear rs) (totalNeutral rs)) :
      ℕ) : ℚ) =
      max (totalBull rs : ℚ) (max (totalBear rs : ℚ) (totalNeutral rs : ℚ)) :=
    by rw [Nat.cast_max, Nat.cast_max]
  have hpct : consensusPct rs =
      ((max (totalBull rs) (max (totalBear rs) (totalNeutral rs)) : ℕ) : ℚ) /
        (rs.length : ℚ) := by
    unfold consensusPct
    rw [if_neg hlen0, hcast]
  refine ⟨rfl, ?_, ?_, ?_, ?_⟩
  · rw [hpct, hcast]
    rfl
  · rw [hpct, le_div_iff₀ hlenQ]
    have : (rs.length : ℚ) ≤
        3 * ((max (totalBull rs) (max (totalBear rs) (totalNeutral rs)) :
          ℕ) : ℚ) := by
      exact_mod_cast hlen_le
    linarith
  · rw [hpct, div_le_one hlenQ]
    exact_mod_cast hM_le
  · intro c hc
    have hc' : c ∈ detectConflicts (tallyVotes rs) := hc
    obtain ⟨p, _, hp⟩ := List.mem_filterMap.mp hc'
    obtain ⟨e1, e2, _, _, _, _, _, _, hopp, hs1, hs2⟩ :=
      checkPair_some_props (tallyVotes rs) p c hp
    rw [e1, e2]
    exact ⟨hs1, hs2, hopp⟩

/-- Witness for C5 on three concrete feature results. -/
theorem calculate_consensus_spec_witness :
    1/3 ≤ consensusPct demoResults ∧ consensusPct demoResults ≤ 1 :=
  ⟨(calculate_consensus_spec demoResults (by simp [demoResults])).2.2.1,
   (calculate_consensus_spec demoResults (by simp [demoResults])).2.2.2.1⟩

/-! ### The double-counted TECHNICAL/SENTIMENT conflict pair -/

/-- A category with majority strength at least 0.6 has votes. -/
theorem total_ne_zero_of_strength (v : CategoryVotes)
    (h : 3/5 ≤ v.strength) : v.total ≠ 0 := by
  intro h0
  unfold CategoryVotes.strength at h
  rw [if_pos h0] at h
  linarith

/-- `checkPair` fires when both categories voted, the dominant directions
are opposite and both strengths are at least 0.6. -/
theorem checkPair_fires (votes : String → CategoryVotes) (p : String × String)
    (h1 : (votes p.1).total ≠ 0) (h2 : (votes p.2).total ≠ 0)
    (h3 : ((votes p.1).direction = .BULLISH ∧
        (votes p.2).direction = .BEARISH) ∨
      ((votes p.1).direction = .BEARISH ∧
        (votes p.2).direction = .BULLISH))
    (h4 : 3/5 ≤ (votes p.1).strength) (h5 : 3/5 ≤ (votes p.2).strength) :
    checkPair votes p = some ⟨p.1, p.2, (votes p.1).direction,
      (votes p.2).direction, (votes p.1).strength, (votes p.2).strength⟩ := by
  simp only [checkPair]
  rw [if_pos ⟨h1, h2⟩, if_pos h3, if_pos ⟨h4, h5⟩]

/-- `checkPair` is silent when the first category has no votes. -/
theorem checkPair_silent_left (votes : String → CategoryVotes)
    (p : String × String) (h : (votes p.1).total = 0) :
    checkPair votes p = none := by
  simp only [checkPair]
  rw [if_neg (by simp [h])]

/-- `checkPair` is silent when the second category has no votes. -/
theorem checkPair_silent_right (votes : String → CategoryVotes)
    (p : String × String) (h : (votes p.2).total = 0) :
    checkPair votes p = none := by
  simp only [checkPair]
  rw [if_neg (by simp [h])]

theorem filterMap_cons_toList {α β : Type} (f : α → Option β) (a : α)
    (l : List α) :
    List.filterMap f (a :: l) = (f a).toList ++ List.filterMap f l := by
  cases h : f a <;> simp [h]

/-- The predicate picking out conflict entries of the TECHNICAL/SENTIMENT
pairing (in either order). -/
def isTechSentPair (c : ConflictRec) : Bool :=
  (c.cat1 = "TECHNICAL" ∧ c.cat2 = "SENTIMENT") ∨
    (c.cat1 = "SENTIMENT" ∧ c.cat2 = "TECHNICAL")

/-- A conflict emitted for a pair that is not the TECHNICAL/SENTIMENT
pairing never satisfies `isTechSentPair`. -/
theorem countP_checkPair_other (votes : String → CategoryVotes)
    (p : String × String)
    (hp : ¬ ((p.1 = "TECHNICAL" ∧ p.2 = "SENTIMENT") ∨
      (p.1 = "SENTIMENT" ∧ p.2 = "TECHNICAL"))) :
    ((checkPair votes p).toList).countP isTechSentPair = 0 := by
  cases h : checkPair votes p with
  | none => simp
  | some c =>
    obtain ⟨e1, e2, _⟩ := checkPair_some_props votes p c h
    simp only [Option.toList_some, List.countP_singleton]
    rw [if_neg]
    simp only [isTechSentPair, e1, e2, decide_eq_true_eq]
    simpa using hp

/-- C10: whenever the TECHNICAL and SENTIMENT categories both have internal
agreement at least 0.6 and opposite dominant directions, the conflict list
contains exactly two entries for that single pairing (the pair list holds it
once in each order); when no other category voted, these are the only
conflicts and the penalty factor of `adjust_confidence_by_consensus` becomes
`1 − 0.10×2 = 0.8` — a 0.20 penalty for one semantic conflict — instead of
`0.9`. -/
theorem technical_sentiment_double_count (rs : List FeatureResult)
    (hs1 : 3/5 ≤ (tallyVotes rs "TECHNICAL").strength)
    (hs2 : 3/5 ≤ (tallyVotes rs "SENTIMENT").strength)
    (hopp : ((tallyVotes rs "TECHNICAL").direction = .BULLISH ∧
        (tallyVotes rs "SENTIMENT").direction = .BEARISH) ∨
      ((tallyVotes rs "TECHNICAL").direction = .BEARISH ∧
        (tallyVotes rs "SENTIMENT").direction = .BULLISH)) :
    ((calculateConsensus rs).conflicts.countP isTechSentPair = 2) ∧
    ((∀ r ∈ rs, r.category = "TECHNICAL" ∨ r.category = "SENTIMENT") →
      (calculateConsensus rs).conflicts.length = 2 ∧
      conflictPenaltyFactor (calculateConsensus rs).conflicts = 8/10 ∧
      conflictPenaltyFactor (calculateConsensus rs).conflicts ≠ 9/10) := by
  have ht : (tallyVotes rs "TECHNICAL").total ≠ 0 :=
    total_ne_zero_of_strength _ hs1
  have hs : (tallyVotes rs "SENTIMENT").total ≠ 0 :=
    total_ne_zero_of_strength _ hs2
  have hoppSwap : ((tallyVotes rs "SENTIMENT").direction = .BULLISH ∧
      (tallyVotes rs "TECHNICAL").direction = .BEARISH) ∨
      ((tallyVotes rs "SENTIMENT").direction = .BEARISH ∧
        (tallyVotes rs "TECHNICAL").direction = .BULLISH) := by
    tauto
  have hTS : checkPair (tallyVotes rs) ("TECHNICAL", "SENTIMENT") =
      some ⟨"TECHNICAL", "SENTIMENT", (tallyVotes rs "TECHNICAL").direction,
        (tallyVotes rs "SENTIMENT").direction,
        (tallyVotes rs "TECHNICAL").strength,
        (tallyVotes rs "SENTIMENT").strength⟩ :=
    checkPair_fires _ _ ht hs hopp hs1 hs2
  have hST : checkPair (tallyVotes rs) ("SENTIMENT", "TECHNICAL") =
      some ⟨"SENTIMENT", "TECHNICAL", (tallyVotes rs "SENTIMENT").direction,
        (tallyVotes rs "TECHNICAL").direction,
        (tallyVotes rs "SENTIMENT").strength,
        (tallyVotes rs "TECHNICAL").strength⟩ :=
    checkPair_fires _ _ hs ht hoppSwap hs2 hs1
  have hsplit : (calculateConsensus rs).conflicts =
      (checkPair (tallyVotes rs) ("TECHNICAL", "MACRO")).toList ++
      ((checkPair (tallyVotes rs) ("TECHNICAL", "SENTIMENT")).toList ++
      ((checkPair (tallyVotes rs) ("CRYPTO_DERIVATIVES", "TECHNICAL")).toList ++
      ((checkPair (tallyVotes rs) ("ONCHAIN", "TECHNICAL")).toList ++
      ((checkPair (tallyVotes rs) ("SENTIMENT", "TECHNICAL")).toList ++
        [])))) := by
    show detectConflicts (tallyVotes rs) = _
    unfold detectConflicts conflictPairs
    rw [filterMap_cons_toList, filterMap_cons_toList, filterMap_cons_toList,
      filterMap_cons_toList, filterMap_cons_toList]
    simp
  constructor
  · rw [hsplit]
    simp only [List.countP_append]
    rw [countP_checkPair_other _ ("TECHNICAL", "MACRO") (by simp),
      countP_checkPair_other _ ("CRYPTO_DERIVATIVES", "TECHNICAL") (by simp),
      countP_checkPair_other _ ("ONCHAIN", "TECHNICAL") (by simp)]
    rw [hTS, hST]
    simp [isTechSentPair]
  · intro honly
    have hz : ∀ cat : String, cat ≠ "TECHNICAL" → cat ≠ "SENTIMENT" →
        (tallyVotes rs cat).total = 0 := by
      intro cat h1 h2
      unfold tallyVotes CategoryVotes.total
      simp only [List.countP_eq_zero]
      refine Nat.add_eq_zero.mpr ⟨Nat.add_eq_zero.mpr ⟨?_, ?_⟩, ?_⟩ <;>
        · rw [List.countP_eq_zero]
          intro r hr
          rcases honly r hr with h | h <;> simp [h, h1.symm, h2.symm]
    have hconfl : (calculateConsensus rs).conflicts =
        [⟨"TECHNICAL", "SENTIMENT", (tallyVotes rs "TECHNICAL").direction,
          (tallyVotes rs "SENTIMENT").direction,
          (tallyVotes rs "TECHNICAL").strength,
          (tallyVotes rs "SENTIMENT").strength⟩,
        ⟨"SENTIMENT", "TECHNICAL", (tallyVotes rs "SENTIMENT").direction,
          (tallyVotes rs "TECHNICAL").direction,
          (tallyVotes rs "SENTIMENT").strength,
          (tallyVotes rs "TECHNICAL").strength⟩] := by
      rw [hsplit]
      rw [checkPair_silent_right _ ("TECHNICAL", "MACRO")
          (hz "MACRO" (by decide) (by decide)),
        checkPair_silent_left _ ("CRYPTO_DERIVATIVES", "TECHNICAL")
          (hz "CRYPTO_DERIVATIVES" (by decide) (by decide)),
        checkPair_silent_left _ ("ONCHAIN", "TECHNICAL")
          (hz "ONCHAIN" (by decide) (by decide)),
        hTS, hST]
      simp
    refine ⟨by rw [hconfl]; rfl, ?_, ?_⟩
    · rw [hconfl]
      unfold conflictPenaltyFactor
      rw [if_pos (by simp)]
      norm_num
    · rw [hconfl]
      unfold conflictPenaltyFactor
      rw [if_pos (by simp)]
      norm_num

/-- Witness for C10 on a concrete bullish-TECHNICAL / bearish-SENTIMENT
feature list. -/
theorem technical_sentiment_double_count_witness :
    (calculateConsensus conflictResults).conflicts.countP isTechSentPair =
      2 :=
  (technical_sentiment_double_count conflictResults
    (by
      have e : tallyVotes conflictResults "TECHNICAL" = ⟨2, 0, 0⟩ := by decide
      rw [e]
      norm_num [CategoryVotes.strength, CategoryVotes.total])
    (by
      have e : tallyVotes conflictResults "SENTIMENT" = ⟨0, 2, 0⟩ := by decide
      rw [e]
      norm_num [CategoryVotes.strength, CategoryVotes.total])
    (by
      have e1 : tallyVotes conflictResults "TECHNICAL" = ⟨2, 0, 0⟩ := by
        decide
      have e2 : tallyVotes conflictResults "SENTIMENT" = ⟨0, 2, 0⟩ := by
        decide
      rw [e1, e2]
      left
      constructor <;> rfl)).1

/-! ### Confidence clamping (C6) -/

/-- C6 (amended): the regime/conflict confidence adjustment of
`_score_to_signal` ends in an unconditional clamp to `[0, 100]`, as does the
consensus recalibration of `adjust_confidence_by_consensus`; the quality /
anomaly filters of `apply_quality_filters` only subtract with a floor of 0
and no upper clamp, so their output lies in `[0, 100]` provided the incoming
decision's confidence already does (which the upstream clamps guarantee). -/
theorem confidence_clamped_spec :
    (∀ (score : ℚ) (ranging conflict : Bool),
      0 ≤ scoreToSignalConfidence score ranging conflict ∧
      scoreToSignalConfidence score ranging conflict ≤ 100) ∧
    (∀ (base : ℚ) (c : ConsensusResult),
      0 ≤ adjustConfidenceByConsensus base c ∧
      adjustConfidenceByConsensus base c ≤ 100) ∧
    (∀ d : EnhancedDecisionOutput, 0 ≤ d.confidence → d.confidence ≤ 100 →
      0 ≤ (applyQualityFilters d).confidence ∧
      (applyQualityFilters d).confidence ≤ 100) := by
  refine ⟨?_, ?_, ?_⟩
  · intro score ranging conflict
    unfold scoreToSignalConfidence
    exact ⟨le_max_left 0 _, max_le (by norm_num) (min_le_left _ _)⟩
  · intro base c
    unfold adjustConfidenceByConsensus
    exact ⟨le_max_left 0 _, max_le (by norm_num) (min_le_left _ _)⟩
  · intro d h0 h100
    unfold applyQualityFilters
    dsimp only
    split_ifs <;>
      constructor <;>
        first
          | exact le_max_right _ 0
          | exact h0
          | exact h100
          | · apply max_le ?_ (by norm_num)
              first
                | linarith
                | · have hm : max (d.confidence - 15) 0 ≤ 100 :=
                      max_le (by linarith) (by norm_num)
                    linarith

/-- Witness for C6 at a concrete decision with in-range confidence. -/
theorem confidence_clamped_spec_witness :
    0 ≤ (applyQualityFilters ⟨.NEUTRAL, 50, 40, 50, 1⟩).confidence ∧
    (applyQualityFilters ⟨.NEUTRAL, 50, 40, 50, 1⟩).confidence ≤ 100 :=
  confidence_clamped_spec.2.2 ⟨.NEUTRAL, 50, 40, 50, 1⟩ (by norm_num)
    (by norm_num)

/-- C6 counterexample: `apply_quality_filters` alone does not clamp to 100 —
a decision whose confidence field is already 150 passes through unchanged,
so the claim's universal quantification over all decisions fails for the
quality/anomaly stage. -/
theorem quality_filters_no_upper_clamp :
    100 < (applyQualityFilters overConfidentDecision).confidence := by
  norm_num [applyQualityFilters, overConfidentDecision]

/-! ### Per-feature error isolation (C7) -/

/-- Any applicable, succeeding calculator's result is in the output of
`calculate_features`. -/
theorem calculateFeatures_mem (marketType : String) (fs : List Feature)
    (g : Feature) (r : FeatureResult) (hg : g ∈ fs)
    (happ : isApplicable marketType g = true)
    (hok : g.calcResult = .ok r) :
    r ∈ calculateFeatures marketType fs := by
  induction fs with
  | nil => exact absurd hg (List.not_mem_nil g)
  | cons x xs ih =>
    rcases List.mem_cons.mp hg with h | h
    · subst h
      simp only [calculateFeatures, happ, if_true, hok]
      exact List.mem_cons_self r _
    · cases hx : isApplicable marketType x with
      | false => simpa [calculateFeatures, hx] using ih h
      | true =>
        cases hcalc : x.calcResult with
        | ok r2 =>
          simp only [calculateFeatures, hx, if_true, hcalc]
          exact List.mem_cons_of_mem r2 (ih h)
        | error e => simpa [calculateFeatures, hx, hcalc] using ih h

/-- C7 (amended): an exception from one feature calculator is caught at the
per-feature boundary and that calculator is skipped — it contributes no
result (rather than a neutral one) and the remaining features evaluate
exactly as if it were absent; every applicable succeeding calculator's
result is always present. -/
theorem feature_error_isolation (marketType : String) (xs ys : List Feature)
    (f : Feature) (e : String) (hf : f.calcResult = .error e) :
    calculateFeatures marketType (xs ++ f :: ys) =
      calculateFeatures marketType (xs ++ ys) ∧
    (∀ g r, g ∈ xs ++ f :: ys → isApplicable marketType g = true →
      g.calcResult = .ok r →
      r ∈ calculateFeatures marketType (xs ++ f :: ys)) := by
  constructor
  · induction xs with
    | nil =>
      cases happ : isApplicable marketType f <;>
        simp [calculateFeatures, happ, hf]
    | cons x xs ih =>
      cases happ : isApplicable marketType x with
      | false => simpa [calculateFeatures, happ] using ih
      | true =>
        cases hcalc : x.calcResult with
        | ok r => simp [calculateFeatures, happ, hcalc, ih]
        | error e2 => simpa [calculateFeatures, happ, hcalc] using ih
  · intro g r hg happ hok
    exact calculateFeatures_mem marketType _ g r hg happ hok

/-- Witness for C7: dropping the raising calculator `featB` from the demo
list leaves the evaluation unchanged. -/
theorem feature_error_isolation_witness :
    calculateFeatures "SPOT" ([featA] ++ featB :: [featC]) =
      calculateFeatures "SPOT" ([featA] ++ [featC]) :=
  (feature_error_isolation "SPOT" [featA] [featC] featB "division by zero"
    rfl).1

/-- C7 counterexample: the raising calculator "B" is skipped outright — the
evaluation of `demoFeatures` returns results named "A" and "C" only, and no
neutral result for "B" is produced (the claim says the failing calculator is
converted to a neutral result). -/
theorem failing_feature_skipped_not_neutral :
    (calculateFeatures "SPOT" demoFeatures).map (fun r => r.name) =
      ["A", "C"] ∧
    ∀ r ∈ calculateFeatures "SPOT" demoFeatures, r.name ≠ "B" := by
  constructor
  · rfl
  · intro r hr
    simp only [demoFeatures, featA, featB, featC, calculateFeatures,
      isApplicable] at hr
    simp at hr
    rcases hr with h | h <;> subst h <;> decide

/-! ### Backtest exit simulation (C4) -/

/-- A TAKE_PROFIT exit from the candle loop happens at the target level on a
bar whose stop check failed (the stop is checked first). -/
theorem scanExit_take_profit (isLong : Bool) (stopLoss target : ℚ)
    (bars : List Bar) (i : ℕ) (p : ℚ) (j : ℕ)
    (h : scanExit isLong stopLoss target bars i =
      some (p, .TAKE_PROFIT, j)) :
    p = target ∧ ∃ k, ∃ hk : k < bars.length, i + k = j ∧
      stopHit isLong stopLoss (bars.get ⟨k, hk⟩) = false ∧
      targetHit isLong target (bars.get ⟨k, hk⟩) = true := by
  induction bars generalizing i with
  | nil => exact Option.noConfusion h
  | cons b rest ih =>
    rw [scanExit] at h
    split_ifs at h with h1 h2
    · simp at h
    · obtain ⟨hp, _, hj⟩ : target = p ∧ ExitReason.TAKE_PROFIT =
          ExitReason.TAKE_PROFIT ∧ i = j := by
        simpa [Prod.ext_iff] using h
      refine ⟨hp.symm, 0, Nat.succ_pos _, by omega, ?_, ?_⟩
      · simpa using (Bool.not_eq_true _).mp h1
      · simpa using h2
    · obtain ⟨hp, k, hk, hik, hs, ht⟩ := ih (i + 1) h
      exact ⟨hp, k + 1, Nat.succ_lt_succ hk, by omega, hs, ht⟩

/-- A STOP_LOSS exit from the candle loop happens at the stop level on a bar
whose stop check succeeded. -/
theorem scanExit_stop_loss (isLong : Bool) (stopLoss target : ℚ)
    (bars : List Bar) (i : ℕ) (p : ℚ) (j : ℕ)
    (h : scanExit isLong stopLoss target bars i = some (p, .STOP_LOSS, j)) :
    p = stopLoss ∧ ∃ k, ∃ hk : k < bars.length, i + k = j ∧
      stopHit isLong stopLoss (bars.get ⟨k, hk⟩) = true := by
  induction bars generalizing i with
  | nil => exact Option.noConfusion h
  | cons b rest ih =>
    rw [scanExit] at h
    split_ifs at h with h1 h2
    · obtain ⟨hp, _, hj⟩ : stopLoss = p ∧ ExitReason.STOP_LOSS =
          ExitReason.STOP_LOSS ∧ i = j := by
        simpa [Prod.ext_iff] using h
      refine ⟨hp.symm, 0, Nat.succ_pos _, by omega, by simpa using h1⟩
    · simp at h
    · obtain ⟨hp, k, hk, hik, hs⟩ := ih (i + 1) h
      exact ⟨hp, k + 1, Nat.succ_lt_succ hk, by omega, hs⟩

/-- When no bar breaches either level, the candle loop finds no exit. -/
theorem scanExit_eq_none (isLong : Bool) (stopLoss target : ℚ)
    (bars : List Bar) (i : ℕ)
    (h : ∀ b ∈ bars, stopHit isLong stopLoss b = false ∧
      targetHit isLong target b = false) :
    scanExit isLong stopLoss target bars i = none := by
  induction bars generalizing i with
  | nil => rfl
  | cons b rest ih =>
    rw [scanExit]
    obtain ⟨hs, ht⟩ := h b (List.mem_cons_self b rest)
    rw [hs]
    simp only [Bool.false_eq_true, if_false]
    rw [ht]
    simp only [Bool.false_eq_true, if_false]
    exact ih (i + 1) (fun b2 hb2 => h b2 (List.mem_cons_of_mem b hb2))

/-- C4 (amended): the per-timeframe bar counts are the fixed lookup
15m→24, 1h→48, 4h→72, 1d→30, 1w→12 (48 for unknown timeframes), but the
provider is asked for `lookup + 10` bars and the walk covers every fetched
bar — not exactly the lookup count. On the exit bar the stop is checked
before the target, for long and short alike, so a bar breaching both levels
is always recorded as STOP_LOSS; when no fetched bar breaches either level
the trade exits at the last fetched bar's close with reason TIMEOUT. -/
theorem backtest_exit_spec :
    (holdingPeriods "15m" = 24 ∧ holdingPeriods "1h" = 48 ∧
      holdingPeriods "4h" = 72 ∧ holdingPeriods "1d" = 30 ∧
      holdingPeriods "1w" = 12 ∧ holdingPeriods "3m" = 48) ∧
    (∀ tf : String, fetchLimit tf = holdingPeriods tf + 10) ∧
    (∀ (isLong : Bool) (stopLoss target : ℚ) (bars : List Bar) (p : ℚ)
      (j : ℕ),
      evaluateDecision isLong stopLoss target bars =
        some (p, .TAKE_PROFIT, j) →
      p = target ∧ ∃ hj : j < bars.length,
        stopHit isLong stopLoss (bars.get ⟨j, hj⟩) = false ∧
        targetHit isLong target (bars.get ⟨j, hj⟩) = true) ∧
    (∀ (isLong : Bool) (stopLoss target : ℚ) (bars : List Bar) (p : ℚ)
      (j : ℕ),
      evaluateDecision isLong stopLoss target bars =
        some (p, .STOP_LOSS, j) →
      p = stopLoss ∧ ∃ hj : j < bars.length,
        stopHit isLong stopLoss (bars.get ⟨j, hj⟩) = true) ∧
    (∀ (isLong : Bool) (stopLoss target : ℚ) (bars : List Bar)
      (hne : bars ≠ []),
      5 ≤ bars.length →
      (∀ b ∈ bars, stopHit isLong stopLoss b = false ∧
        targetHit isLong target b = false) →
      evaluateDecision isLong stopLoss target bars =
        some ((bars.getLast hne).close, .TIMEOUT, bars.length - 1)) := by
  refine ⟨⟨rfl, rfl, rfl, rfl, rfl, rfl⟩, fun tf => rfl, ?_, ?_, ?_⟩
  · intro isLong stopLoss target bars p j h
    unfold evaluateDecision at h
    split_ifs at h
    cases hscan : scanExit isLong stopLoss target bars 0 with
    | some r =>
      rw [hscan] at h
      cases h
      obtain ⟨hp, k, hk, hik, hs, ht⟩ :=
        scanExit_take_profit isLong stopLoss target bars 0 p j hscan
      have : k = j := by omega
      subst this
      exact ⟨hp, hk, hs, ht⟩
    | none =>
      rw [hscan] at h
      cases hlast : bars.getLast? with
      | some lastBar => rw [hlast] at h; simp at h
      | none => rw [hlast] at h; exact Option.noConfusion h
  · intro isLong stopLoss target bars p j h
    unfold evaluateDecision at h
    split_ifs at h
    cases hscan : scanExit isLong stopLoss target bars 0 with
    | some r =>
      rw [hscan] at h
      cases h
      obtain ⟨hp, k, hk, hik, hs⟩ :=
        scanExit_stop_loss isLong stopLoss target bars 0 p j hscan
      have : k = j := by omega
      subst this
      exact ⟨hp, hk, hs⟩
    | none =>
      rw [hscan] at h
      cases hlast : bars.getLast? with
      | some lastBar => rw [hlast] at h; simp at h
      | none => rw [hlast] at h; exact Option.noConfusion h
  · intro isLong stopLoss target bars hne hlen h
    unfold evaluateDecision
    rw [if_neg (by omega)]
    rw [scanExit_eq_none isLong stopLoss target bars 0 h]
    rw [List.getLast?_eq_getLast bars hne]

/-- Witness for C4 on five quiet bars: TIMEOUT at the last close. -/
theorem backtest_exit_spec_witness :
    evaluateDecision true 95 115 (List.replicate 5 quietBar) =
      some (quietBar.close, .TIMEOUT, 4) :=
  backtest_exit_spec.2.2.2.2 true 95 115 (List.replicate 5 quietBar)
    (by decide) (by decide) (by decide)

/-- C4 counterexample: for timeframe 15m the lookup is 24 bars, yet with 25
fetched bars (the fetch asks for `24 + 10`) whose first 24 breach nothing
and whose 25th breaches the stop, the walk exits STOP_LOSS on bar index 24 —
it does not stop after exactly 24 bars with a TIMEOUT as the claim
predicts. -/
theorem walk_exceeds_holding_period :
    holdingPeriods "15m" = 24 ∧ bars25.length = 25 ∧
    (∀ b ∈ bars25.take 24, stopHit true 95 b = false ∧
      targetHit true 115 b = false) ∧
    evaluateDecision true 95 115 bars25 = some (95, .STOP_LOSS, 24) ∧
    ExitReason.STOP_LOSS ≠ ExitReason.TIMEOUT := by
  refine ⟨rfl, rfl, by decide, by decide, by decide⟩

/-! ### Trade parameters (C8) -/

/-- C8: trade parameters are absent exactly for NEUTRAL signals; buy-side
signals place the stop `ATR(14) × (2.5 if HIGH volatility else 2.0)` below
the current close and the target `risk × rr` above it, sell-side signals
mirror both, with `rr` 3.0 for confidence above 80, 2.5 above 60, else 2.0;
when the ATR is positive the stop and target lie strictly on the correct
sides of the close. -/
theorem trade_params_spec (currentPrice : ℚ) (bars : List Bar)
    (signal : Signal) (confidence : ℤ) (volHigh : Bool)
    (hbars : 14 ≤ bars.length) :
    (calculateTradeParams currentPrice bars signal confidence volHigh =
        none ↔ signal = .NEUTRAL) ∧
    (isBuySignal signal = true →
      calculateTradeParams currentPrice bars signal confidence volHigh =
        some (currentPrice,
          currentPrice - atr14 bars * (if volHigh then 5/2 else 2),
          currentPrice + atr14 bars * (if volHigh then 5/2 else 2) *
            (if 80 < confidence then 3 else if 60 < confidence then 5/2
              else 2),
          if 80 < confidence then 3 else if 60 < confidence then 5/2
            else 2)) ∧
    (isSellSignal signal = true →
      calculateTradeParams currentPrice bars signal confidence volHigh =
        some (currentPrice,
          currentPrice + atr14 bars * (if volHigh then 5/2 else 2),
          currentPrice - atr14 bars * (if volHigh then 5/2 else 2) *
            (if 80 < confidence then 3 else if 60 < confidence then 5/2
              else 2),
          if 80 < confidence then 3 else if 60 < confidence then 5/2
            else 2)) ∧
    (0 < atr14 bars → isBuySignal signal = true →
      currentPrice - atr14 bars * (if volHigh then 5/2 else 2) <
        currentPrice ∧
      currentPrice < currentPrice + atr14 bars *
        (if volHigh then 5/2 else 2) *
        (if 80 < confidence then 3 else if 60 < confidence then 5/2
          else 2)) ∧
    (0 < atr14 bars → isSellSignal signal = true →
      currentPrice < currentPrice + atr14 bars *
        (if volHigh then 5/2 else 2) ∧
      currentPrice - atr14 bars * (if volHigh then 5/2 else 2) *
        (if 80 < confidence then 3 else if 60 < confidence then 5/2
          else 2) < currentPrice) := by
  have hmult : (0 : ℚ) < (if volHigh then 5/2 else 2) := by
    split_ifs <;> norm_num
  have hrr : (0 : ℚ) <
      (if 80 < confidence then (3:ℚ) else if 60 < confidence then 5/2
        else 2) := by
    split_ifs <;> norm_num
  refine ⟨?_, ?_, ?_, ?_, ?_⟩
  · cases signal <;>
      simp [calculateTradeParams, isBuySignal, isSellSignal]
  · intro hbuy
    unfold calculateTradeParams
    rw [hbuy]
    simp only [if_true, Option.some.injEq, Prod.mk.injEq, true_and,
      and_true]
    ring
  · intro hsell
    have hnotbuy : isBuySignal signal = false := by
      cases signal <;> simp_all [isBuySignal, isSellSignal]
    unfold calculateTradeParams
    rw [hnotbuy, hsell]
    simp only [Bool.false_eq_true, if_false, if_true, Option.some.injEq,
      Prod.mk.injEq, true_and, and_true]
    ring
  · intro hatr _
    have h1 := mul_pos hatr hmult
    have h2 := mul_pos h1 hrr
    constructor <;> linarith
  · intro hatr _
    have h1 := mul_pos hatr hmult
    have h2 := mul_pos h1 hrr
    constructor <;> linarith

/-- Witness for C8: a BUY signal with confidence 70 over the demo bars. -/
theorem trade_params_spec_witness :
    calculateTradeParams 100 bars25 .BUY 70 false =
      some (100, 100 - atr14 bars25 * 2, 100 + atr14 bars25 * 2 * (5/2),
        5/2) := by
  have h := (trade_params_spec 100 bars25 .BUY 70 false (by decide)).2.1 rfl
  simpa using h

end TradingOracle
